import Mathlib

/-!
Shallow embedding of the clubhouse-to-discord webhook transformer
(`function.go`, `clubhouse.go`) and proofs about its behaviour.

Conventions of the embedding:
- Go machine integers are modelled as `Int` (ids, estimates) or `Nat`
  (byte values, with explicit `% 2^32` where 32-bit overflow matters);
- Go `time.Time` values are carried as their already-rendered `String`
  form, since the code only ever calls `String()` on them;
- the network-bound member lookup (`ClubhouseApiClient.GetMember` in
  `clubhouse.go`) is an oracle parameter of type
  `String -> Except String GetMemberResponse`;
- JSON decoding of the request body and the destination POST are
  likewise oracle parameters of the request handler;
- string helpers (`strings.Title`, `strings.TrimSpace`, hex decoding)
  are modelled faithfully for ASCII input, which is the character range
  the program manipulates.
-/

namespace CtoD

/-- One entry of the `references` list of the webhook payload
(struct `ClubhouseReference` in `function.go`). Fields unused by the
program (for example `app_url`) are kept for fidelity. -/
structure ClubhouseReference where
  appURL : String := ""
  entityType : String := ""
  id : Int := 0
  name : String := ""
  type : String := ""
deriving DecidableEq

/-- A boolean old/new pair (several sub-records of `ClubhouseChanges`). -/
structure BoolChange where
  new : Bool := false
  old : Bool := false
deriving DecidableEq

/-- An old/new pair of optional rendered timestamps (the `deadline`
sub-record; `time.Time` is carried as its rendered string). -/
structure OptTimeChange where
  new : Option String := none
  old : Option String := none
deriving DecidableEq

/-- An old/new pair of optional integers (the `epic_id`, `estimate` and
`iteration_id` sub-records, whose Go fields are `*int`). -/
structure OptIntChange where
  new : Option Int := none
  old : Option Int := none
deriving DecidableEq

/-- An old/new pair of plain integers (the `position`, `project_id` and
`workflow_state_id` sub-records, whose Go fields are non-pointer `int`,
so an id absent from the JSON decodes to `0`). -/
structure IntChange where
  new : Int := 0
  old : Int := 0
deriving DecidableEq

/-- An old/new pair of strings (the `story_type` and `text` sub-records). -/
structure StrChange where
  new : String := ""
  old : String := ""
deriving DecidableEq

/-- An adds/removes pair of integer id lists (`comment_ids`, `label_ids`). -/
structure IntListDelta where
  adds : List Int := []
  removes : List Int := []
deriving DecidableEq

/-- An adds/removes pair of string id lists (`owner_ids`). -/
structure StrListDelta where
  adds : List String := []
  removes : List String := []
deriving DecidableEq

/-- The `changes` record of an action (struct `ClubhouseChanges` in
`function.go`): one optional sub-record per mutable property. -/
structure ClubhouseChanges where
  archived : Option BoolChange := none
  blocker : Option BoolChange := none
  commentIds : Option IntListDelta := none
  completed : Option BoolChange := none
  completedAt : Option String := none
  deadline : Option OptTimeChange := none
  epicID : Option OptIntChange := none
  estimate : Option OptIntChange := none
  followerIds : Option (List String) := none
  iterationID : Option OptIntChange := none
  labelIds : Option IntListDelta := none
  ownerIds : Option StrListDelta := none
  position : Option IntChange := none
  projectID : Option IntChange := none
  started : Option BoolChange := none
  startedAt : Option String := none
  storyType : Option StrChange := none
  text : Option StrChange := none
  workflowStateID : Option IntChange := none
deriving DecidableEq

/-- One action of the webhook payload (struct `ClubhouseAction` in
`function.go`). -/
structure ClubhouseAction where
  action : String := ""
  appURL : String := ""
  authorID : String := ""
  changes : ClubhouseChanges := {}
  complete : Bool := false
  description : String := ""
  entityType : String := ""
  epicID : Int := 0
  estimate : Int := 0
  followerIds : List String := []
  id : Int := 0
  iterationID : Int := 0
  milestoneID : Int := 0
  name : String := ""
  ownerIds : List String := []
  position : Int := 0
  projectID : Int := 0
  requestedByID : String := ""
  storyType : String := ""
  taskIds : List Int := []
  text : String := ""
  url : String := ""
  workflowStateID : Int := 0
deriving DecidableEq

/-- The webhook envelope (struct `ClubhouseWebhook` in `function.go`);
`changed_at` is carried as its rendered string. -/
structure ClubhouseWebhook where
  actions : List ClubhouseAction := []
  changedAt : String := ""
  id : String := ""
  memberID : String := ""
  primaryID : Int := 0
  references : List ClubhouseReference := []
  version : String := ""
deriving DecidableEq

/-- One name/value display field of the outgoing Discord embed
(struct `Field` in `function.go`). -/
structure Field where
  name : String := ""
  value : String := ""
  inline : Bool := false
deriving DecidableEq

/-- One embed of the outgoing Discord message (struct `Embed`). -/
structure Embed where
  title : String := ""
  url : String := ""
  description : String := ""
  color : Int := 0
  fields : List Field := []
deriving DecidableEq

/-- The outgoing Discord message (struct `DiscordWebhook`). -/
structure DiscordWebhook where
  content : String := ""
  embeds : List Embed := []
deriving DecidableEq

/-- The profile sub-object of a member-lookup response; only `name` is
read by the program (`member.Profile.Name`). -/
structure MemberProfile where
  name : String := ""
deriving DecidableEq

/-- The member-lookup response (struct `GetMemberResponse` in
`clubhouse.go`, restricted to the part the program reads). -/
structure GetMemberResponse where
  profile : MemberProfile := {}
deriving DecidableEq

/-- The member lookup (`ClubhouseApiClient.GetMember`) as an oracle:
it either yields a response or fails with an error message. -/
def MemberLookup : Type := String → Except String GetMemberResponse

/-- A Go `map[string]ClubhouseReference` is modelled as a partial map;
an absent key yields `none` (the comma-ok form) and callers that use
the plain indexing form take the zero value explicitly. -/
def RefMap : Type := String → Option ClubhouseReference

/-- The zero value of `ClubhouseReference`, which Go map indexing
without the comma-ok form returns for an absent key. -/
def zeroReference : ClubhouseReference := {}

/-- `getReferencesByTypeID` from `function.go`: index the references by
the key `"<entity_type>:<id>"`; a later duplicate key overwrites an
earlier one (Go map insertion order). -/
def getReferencesByTypeID (webhook : ClubhouseWebhook) : RefMap :=
  webhook.references.foldl
    (fun m reference =>
      fun typeID =>
        if typeID = reference.entityType ++ ":" ++ toString reference.id then
          some reference
        else
          m typeID)
    (fun _ => none)

/-- ASCII model of the separator test used by Go `strings.Title`:
digits, ASCII letters and underscore are not separators; every other
ASCII character is. -/
def isSeparatorGo (c : Char) : Bool :=
  !(c.isAlphanum || c = '_')

/-- Character-list worker for `titleGo`; the first argument is the
previous character (initially a space). -/
def titleMapGo (prev : Char) : List Char → List Char
  | [] => []
  | c :: cs => (if isSeparatorGo prev then c.toUpper else c) :: titleMapGo c cs

/-- ASCII model of Go `strings.Title`: upper-case every character that
follows a separator. -/
def titleGo (s : String) : String :=
  ⟨titleMapGo ' ' s.data⟩

/-- The ASCII whitespace set of Go `strings.TrimSpace`. -/
def isSpaceGo (c : Char) : Bool :=
  c = ' ' || c = '\t' || c = '\n' || c = '\x0b' || c = '\x0c' || c = '\r'

/-- ASCII model of Go `strings.TrimSpace`: drop leading and trailing
whitespace. -/
def trimSpaceGo (s : String) : String :=
  ⟨((s.data.dropWhile isSpaceGo).reverse.dropWhile isSpaceGo).reverse⟩

/-- `getActionFields` from `function.go` (create path): build the field
list by the fixed sequence of conditional appends of the source. Go map
indexing without the comma-ok form is modelled by taking the zero
reference for an absent key, so an unresolved id contributes an empty
display value. -/
def getActionFields (referencesByTypeID : RefMap) (action : ClubhouseAction) : List Field :=
  let fields : List Field := []
  let fields :=
    if action.storyType ≠ "" then
      fields ++ [{ name := "Type", value := action.storyType, inline := true }]
    else fields
  let fields :=
    if action.projectID > 0 then
      let project := (referencesByTypeID ("project:" ++ toString action.projectID)).getD zeroReference
      fields ++ [{ name := "Project", value := project.name, inline := true }]
    else fields
  let fields :=
    if action.milestoneID > 0 then
      let milestone := (referencesByTypeID ("milestone:" ++ toString action.milestoneID)).getD zeroReference
      fields ++ [{ name := "Milestone", value := milestone.name, inline := true }]
    else fields
  let fields :=
    if action.workflowStateID > 0 then
      let workflowState := (referencesByTypeID ("workflow-state:" ++ toString action.workflowStateID)).getD zeroReference
      fields ++ [{ name := "State", value := workflowState.name, inline := true }]
    else fields
  let fields :=
    if action.epicID > 0 then
      let epic := (referencesByTypeID ("epic:" ++ toString action.epicID)).getD zeroReference
      fields ++ [{ name := "Epic", value := epic.name, inline := true }]
    else fields
  let fields :=
    if action.iterationID > 0 then
      let iteration := (referencesByTypeID ("iteration:" ++ toString action.iterationID)).getD zeroReference
      fields ++ [{ name := "Iteration", value := iteration.name, inline := true }]
    else fields
  let fields :=
    if action.estimate > 0 then
      fields ++ [{ name := "Estimate", value := toString action.estimate, inline := true }]
    else fields
  fields

/-- The `changes.Deadline` block of `getChangesFields`: old/new render
as "No Date" when absent, else the rendered timestamp. -/
def changesDeadlineFields (changes : ClubhouseChanges) : List Field :=
  match changes.deadline with
  | none => []
  | some d =>
    let oldDeadline := match d.old with | none => "No Date" | some t => t
    let newDeadline := match d.new with | none => "No Date" | some t => t
    [{ name := "Deadline", value := oldDeadline ++ " -> " ++ newDeadline }]

/-- The `changes.EpicID` block of `getChangesFields`: absent id renders
"None", unresolved id renders "Unknown", resolved id renders the
reference name. -/
def changesEpicFields (referencesByTypeID : RefMap) (changes : ClubhouseChanges) : List Field :=
  match changes.epicID with
  | none => []
  | some c =>
    let oldEpicValue :=
      match c.old with
      | none => "None"
      | some i =>
        match referencesByTypeID ("epic:" ++ toString i) with
        | some oldEpic => oldEpic.name
        | none => "Unknown"
    let newEpicValue :=
      match c.new with
      | none => "None"
      | some i =>
        match referencesByTypeID ("epic:" ++ toString i) with
        | some newEpic => newEpic.name
        | none => "Unknown"
    [{ name := "Epic", value := oldEpicValue ++ " -> " ++ newEpicValue }]

/-- The `changes.Estimate` block of `getChangesFields`. -/
def changesEstimateFields (changes : ClubhouseChanges) : List Field :=
  match changes.estimate with
  | none => []
  | some c =>
    let oldEstimateValue := match c.old with | none => "Unestimated" | some i => toString i
    let newEstimateValue := match c.new with | none => "Unestimated" | some i => toString i
    [{ name := "Estimate", value := oldEstimateValue ++ " -> " ++ newEstimateValue }]

/-- The `changes.IterationID` block of `getChangesFields`. -/
def changesIterationFields (referencesByTypeID : RefMap) (changes : ClubhouseChanges) : List Field :=
  match changes.iterationID with
  | none => []
  | some c =>
    let oldIterationValue :=
      match c.old with
      | none => "None"
      | some i =>
        match referencesByTypeID ("iteration:" ++ toString i) with
        | some oldIteration => oldIteration.name
        | none => "Unknown"
    let newIterationValue :=
      match c.new with
      | none => "None"
      | some i =>
        match referencesByTypeID ("iteration:" ++ toString i) with
        | some newIteration => newIteration.name
        | none => "Unknown"
    [{ name := "Iteration", value := oldIterationValue ++ " -> " ++ newIterationValue }]

/-- The `changes.LabelIds` block of `getChangesFields`. The Go code
preallocates a name slice of the same length as the id list and fills
in only the resolved names, so an unresolved id leaves an empty string
in the joined value; the inner length guard of the source is kept even
though it always holds. -/
def changesLabelFields (referencesByTypeID : RefMap) (changes : ClubhouseChanges) : List Field :=
  match changes.labelIds with
  | none => []
  | some l =>
    let addsPart :=
      if l.adds.length > 0 then
        let labelsAdded := l.adds.map (fun labelID =>
          match referencesByTypeID ("label:" ++ toString labelID) with
          | some label => label.name
          | none => "")
        if labelsAdded.length > 0 then
          [{ name := "Label(s) Added", value := String.intercalate ", " labelsAdded }]
        else []
      else []
    let removesPart :=
      if l.removes.length > 0 then
        let labelsRemoved := l.removes.map (fun labelID =>
          match referencesByTypeID ("label:" ++ toString labelID) with
          | some label => label.name
          | none => "")
        if labelsRemoved.length > 0 then
          [{ name := "Label(s) Removed", value := String.intercalate ", " labelsRemoved }]
        else []
      else []
    addsPart ++ removesPart

/-- The owner-name loop of `getChangesFields`: look up each id in order
and stop at the first failing lookup, propagating its error. -/
def getOwnerNames (getMember : MemberLookup) : List String → Except String (List String)
  | [] => .ok []
  | ownerID :: rest =>
    match getMember ownerID with
    | .error e => .error e
    | .ok member =>
      match getOwnerNames getMember rest with
      | .error e => .error e
      | .ok names => .ok (member.profile.name :: names)

/-- The `changes.OwnerIds` block of `getChangesFields`: ids resolve via
the member lookup, and any failing lookup aborts with its error. -/
def changesOwnerFields (getMember : MemberLookup) (changes : ClubhouseChanges) :
    Except String (List Field) :=
  match changes.ownerIds with
  | none => .ok []
  | some o =>
    let addsPart : Except String (List Field) :=
      if o.adds.length > 0 then
        match getOwnerNames getMember o.adds with
        | .error e => .error e
        | .ok ownersAdded =>
          .ok [{ name := "Owner(s) Added", value := String.intercalate ", " ownersAdded }]
      else .ok []
    match addsPart with
    | .error e => .error e
    | .ok fs1 =>
      if o.removes.length > 0 then
        match getOwnerNames getMember o.removes with
        | .error e => .error e
        | .ok ownersRemoved =>
          .ok (fs1 ++ [{ name := "Owner(s) Removed", value := String.intercalate ", " ownersRemoved }])
      else .ok fs1

/-- The `changes.ProjectID` block of `getChangesFields`: the ids are
non-optional, so the only cases are a resolved name or "Unknown". -/
def changesProjectFields (referencesByTypeID : RefMap) (changes : ClubhouseChanges) : List Field :=
  match changes.projectID with
  | none => []
  | some c =>
    let oldProjectValue :=
      match referencesByTypeID ("project:" ++ toString c.old) with
      | some oldProject => oldProject.name
      | none => "Unknown"
    let newProjectValue :=
      match referencesByTypeID ("project:" ++ toString c.new) with
      | some newProject => newProject.name
      | none => "Unknown"
    [{ name := "Project", value := oldProjectValue ++ " -> " ++ newProjectValue }]

/-- The `changes.StoryType` block of `getChangesFields`. -/
def changesStoryTypeFields (changes : ClubhouseChanges) : List Field :=
  match changes.storyType with
  | none => []
  | some c => [{ name := "Type", value := titleGo (c.old ++ " -> " ++ c.new) }]

/-- The `changes.Text` block of `getChangesFields`: a fixed placeholder
when old and new differ. -/
def changesTextFields (changes : ClubhouseChanges) : List Field :=
  match changes.text with
  | none => []
  | some c =>
    if c.old ≠ c.new then [{ name := "Description", value := "(Edited)" }] else []

/-- The `changes.WorkflowStateID` block of `getChangesFields`: like the
project block, plus a title-case rendering of the whole value. -/
def changesWorkflowStateFields (referencesByTypeID : RefMap) (changes : ClubhouseChanges) : List Field :=
  match changes.workflowStateID with
  | none => []
  | some c =>
    let oldWorkflowStateValue :=
      match referencesByTypeID ("workflow-state:" ++ toString c.old) with
      | some oldWorkflowState => oldWorkflowState.name
      | none => "Unknown"
    let newWorkflowStateValue :=
      match referencesByTypeID ("workflow-state:" ++ toString c.new) with
      | some newWorkflowState => newWorkflowState.name
      | none => "Unknown"
    [{ name := "State", value := titleGo (oldWorkflowStateValue ++ " -> " ++ newWorkflowStateValue) }]

/-- `getChangesFields` from `function.go` (update path): the blocks run
in the fixed source order (deadline, epic, estimate, iteration, labels,
owners, project, story type, text, workflow state), appending to one
field list; a failing owner lookup discards the list and returns the
error, exactly as the Go code returns `([]Field\x7b\x7d, err)`. -/
def getChangesFields (getMember : MemberLookup) (referencesByTypeID : RefMap)
    (changes : ClubhouseChanges) : Except String (List Field) :=
  let fields :=
    changesDeadlineFields changes ++
    changesEpicFields referencesByTypeID changes ++
    changesEstimateFields changes ++
    changesIterationFields referencesByTypeID changes ++
    changesLabelFields referencesByTypeID changes
  match changesOwnerFields getMember changes with
  | .error e => .error e
  | .ok ownerFields =>
    .ok (fields ++ ownerFields ++
      changesProjectFields referencesByTypeID changes ++
      changesStoryTypeFields changes ++
      changesTextFields changes ++
      changesWorkflowStateFields referencesByTypeID changes)

/-- The translator can fail in two ways: the unchecked `Actions[0]`
access panics on an empty list (modelled as `indexOOB`), or a member
lookup fails and the error is returned (`lookupFailed`). -/
inductive TransErr where
  | indexOOB
  | lookupFailed (msg : String)
deriving DecidableEq

/-- The title block of `toDiscord`: only composed when kind, entity
type and name are all non-empty; with a member id the looked-up name is
passed through Go `strings.Title` and prefixed, otherwise the kind
itself is title-cased. A failing lookup propagates as an error. -/
def composeTitle (getMember : MemberLookup) (webhook : ClubhouseWebhook)
    (firstAction : ClubhouseAction) : Except TransErr String :=
  if firstAction.action ≠ "" ∧ firstAction.entityType ≠ "" ∧ firstAction.name ≠ "" then
    if webhook.memberID ≠ "" then
      match getMember webhook.memberID with
      | .error e => .error (.lookupFailed e)
      | .ok member =>
        .ok (titleGo member.profile.name ++ " " ++ firstAction.action ++ "d " ++
          firstAction.entityType ++ ": " ++ firstAction.name)
    else
      .ok (titleGo firstAction.action ++ "d " ++ firstAction.entityType ++ ": " ++
        firstAction.name)
  else
    .ok ""

/-- The tail of `toDiscord` after colour and fields are fixed: compose
the title, take the URL from the action, drop the event when either is
empty, otherwise build the single-embed message. -/
def toDiscordFinish (getMember : MemberLookup) (webhook : ClubhouseWebhook)
    (firstAction : ClubhouseAction) (colour : Int) (fields : List Field) :
    Except TransErr (Option DiscordWebhook) :=
  match composeTitle getMember webhook firstAction with
  | .error e => .error e
  | .ok webhookTitle =>
    let webhookURL := if firstAction.appURL ≠ "" then firstAction.appURL else ""
    if webhookTitle = "" ∨ webhookURL = "" then
      .ok none
    else
      let embed : Embed :=
        { title := webhookTitle, url := webhookURL, description := "", color := colour, fields := fields }
      .ok (some { content := "", embeds := [embed] })

/-- `toDiscord` from `function.go`: read the first action (panicking on
an empty list), dispatch on its kind with the fixed colour constants,
and finish with the common title/URL logic. `ok none` is the "no
message" outcome. -/
def toDiscord (getMember : MemberLookup) (webhook : ClubhouseWebhook) :
    Except TransErr (Option DiscordWebhook) :=
  match webhook.actions with
  | [] => .error .indexOOB
  | firstAction :: _ =>
    let referencesByTypeID := getReferencesByTypeID webhook
    match firstAction.action with
    | "create" =>
      let fields := getActionFields referencesByTypeID firstAction
      if fields.length = 0 then .ok none
      else toDiscordFinish getMember webhook firstAction 5424154 fields
    | "update" =>
      match getChangesFields getMember referencesByTypeID firstAction.changes with
      | .error e => .error (.lookupFailed e)
      | .ok fields =>
        if fields.length = 0 then .ok none
        else toDiscordFinish getMember webhook firstAction 16440084 fields
    | "delete" => toDiscordFinish getMember webhook firstAction 16065069 []
    | _ => .ok none

/-- Truncation to a 32-bit word. -/
def w32 (n : Nat) : Nat := n % 4294967296

/-- Right rotation of a 32-bit word by `n` places. -/
def rotr32 (n x : Nat) : Nat := w32 ((x >>> n) ||| (x <<< (32 - n)))

/-- The eight SHA-256 initial hash words (FIPS 180-4). -/
structure Sha256State where
  a : Nat
  b : Nat
  c : Nat
  d : Nat
  e : Nat
  f : Nat
  g : Nat
  h : Nat
deriving DecidableEq

/-- The 64 SHA-256 round constants (FIPS 180-4). -/
def sha256K : List Nat :=
  [1116352408, 1899447441, 3049323471, 3921009573, 961987163, 1508970993,
   2453635748, 2870763221, 3624381080, 310598401, 607225278, 1426881987,
   1925078388, 2162078206, 2614888103, 3248222580, 3835390401, 4022224774,
   264347078, 604807628, 770255983, 1249150122, 1555081692, 1996064986,
   2554220882, 2821834349, 2952996808, 3210313671, 3336571891, 3584528711,
   113926993, 338241895, 666307205, 773529912, 1294757372, 1396182291,
   1695183700, 1986661051, 2177026350, 2456956037, 2730485921, 2820302411,
   3259730800, 3345764771, 3516065817, 3600352804, 4094571909, 275423344,
   430227734, 506948616, 659060556, 883997877, 958139571, 1322822218,
   1537002063, 1747873779, 1955562222, 2024104815, 2227730452, 2361852424,
   2428436474, 2756734187, 3204031479, 3329325298]

/-- One SHA-256 compression round on the eight working words. -/
def sha256Round (st : Sha256State) (k w : Nat) : Sha256State :=
  let s1 := rotr32 6 st.e ^^^ rotr32 11 st.e ^^^ rotr32 25 st.e
  let chEFG := (st.e &&& st.f) ^^^ ((st.e ^^^ 4294967295) &&& st.g)
  let temp1 := w32 (st.h + s1 + chEFG + k + w)
  let s0 := rotr32 2 st.a ^^^ rotr32 13 st.a ^^^ rotr32 22 st.a
  let majABC := (st.a &&& st.b) ^^^ (st.a &&& st.c) ^^^ (st.b &&& st.c)
  let temp2 := w32 (s0 + majABC)
  ⟨w32 (temp1 + temp2), st.a, st.b, st.c, w32 (st.d + temp1), st.e, st.f, st.g⟩

/-- Extend a message schedule by one word (FIPS 180-4 §6.2.2 step 1). -/
def sha256Extend (ws : List Nat) : List Nat :=
  let n := ws.length
  let w15 := ws.getD (n - 15) 0
  let w2 := ws.getD (n - 2) 0
  let w16 := ws.getD (n - 16) 0
  let w7 := ws.getD (n - 7) 0
  let s0 := rotr32 7 w15 ^^^ rotr32 18 w15 ^^^ (w15 >>> 3)
  let s1 := rotr32 17 w2 ^^^ rotr32 19 w2 ^^^ (w2 >>> 10)
  ws ++ [w32 (w16 + s0 + w7 + s1)]

/-- Compress one 64-byte chunk, given as its 16 big-endian words. -/
def sha256Compress (st0 : Sha256State) (chunkWords : List Nat) : Sha256State :=
  let ws := (List.range 48).foldl (fun acc _ => sha256Extend acc) chunkWords
  let st := (sha256K.zip ws).foldl (fun s kw => sha256Round s kw.1 kw.2) st0
  ⟨w32 (st0.a + st.a), w32 (st0.b + st.b), w32 (st0.c + st.c), w32 (st0.d + st.d),
   w32 (st0.e + st.e), w32 (st0.f + st.f), w32 (st0.g + st.g), w32 (st0.h + st.h)⟩

/-- Big-endian 8-byte serialization of a length in bits. -/
def be64 (n : Nat) : List Nat :=
  [(n >>> 56) &&& 255, (n >>> 48) &&& 255, (n >>> 40) &&& 255, (n >>> 32) &&& 255,
   (n >>> 24) &&& 255, (n >>> 16) &&& 255, (n >>> 8) &&& 255, n &&& 255]

/-- Big-endian 4-byte serialization of a 32-bit word. -/
def be32 (n : Nat) : List Nat :=
  [(n >>> 24) &&& 255, (n >>> 16) &&& 255, (n >>> 8) &&& 255, n &&& 255]

/-- SHA-256 padding: `0x80`, zeros to 56 mod 64, then the bit length. -/
def sha256Pad (msg : List Nat) : List Nat :=
  let len := msg.length
  let padZeros := (55 + 64 - len % 64) % 64
  msg ++ [0x80] ++ List.replicate padZeros 0 ++ be64 (len * 8)

/-- Split a byte list into groups of 4, as big-endian 32-bit words. -/
def bytesToWords32 : List Nat → List Nat
  | b0 :: b1 :: b2 :: b3 :: rest =>
    ((b0 <<< 24) ||| (b1 <<< 16) ||| (b2 <<< 8) ||| b3) :: bytesToWords32 rest
  | _ => []

/-- Split a padded message into 64-byte chunks. -/
def toChunks64 : List Nat → List (List Nat)
  | [] => []
  | b :: rest => ((b :: rest).take 64) :: toChunks64 ((b :: rest).drop 64)
termination_by l => l.length
decreasing_by simp [List.length_drop]; omega

/-- SHA-256 of a byte list, as a 32-byte list. -/
def sha256 (msg : List Nat) : List Nat :=
  let st0 : Sha256State :=
    ⟨1779033703, 3144134277, 1013904242, 2773480762, 1359893119, 2600822924, 528734635, 1541459225⟩
  let st := (toChunks64 (sha256Pad msg)).foldl
    (fun s chunk => sha256Compress s (bytesToWords32 chunk)) st0
  be32 st.a ++ be32 st.b ++ be32 st.c ++ be32 st.d ++ be32 st.e ++ be32 st.f ++ be32 st.g ++ be32 st.h

/-- HMAC-SHA256 (FIPS 198-1), as constructed by Go `hmac.New` with a
SHA-256 block size of 64 bytes: hash an over-long key, zero-pad, then
the nested inner/outer hashes with the `0x36`/`0x5c` pads. This is the
reference MAC computation the handler compares signatures against. -/
def hmacSha256 (key msg : List Nat) : List Nat :=
  let key1 := if key.length > 64 then sha256 key else key
  let key0 := key1 ++ List.replicate (64 - key1.length) 0
  let ipad := key0.map (fun b => b ^^^ 0x36)
  let opad := key0.map (fun b => b ^^^ 0x5c)
  sha256 (opad ++ sha256 (ipad ++ msg))

/-- The value of one hex digit, or `none` (Go `hex.DecodeString`). -/
def hexDigitVal (c : Char) : Option Nat :=
  if '0' ≤ c ∧ c ≤ '9' then some (c.toNat - 48)
  else if 'a' ≤ c ∧ c ≤ 'f' then some (c.toNat - 87)
  else if 'A' ≤ c ∧ c ≤ 'F' then some (c.toNat - 55)
  else none

/-- Hex-decode a character list two digits at a time; odd length or an
invalid digit fails. -/
def hexDecodeChars : List Char → Option (List Nat)
  | [] => some []
  | [_] => none
  | c1 :: c2 :: rest =>
    match hexDigitVal c1, hexDigitVal c2, hexDecodeChars rest with
    | some hi, some lo, some bs => some ((hi * 16 + lo) :: bs)
    | _, _, _ => none

/-- Model of Go `hex.DecodeString` (the error case maps to `none`). -/
def hexDecode (s : String) : Option (List Nat) :=
  hexDecodeChars s.data

/-- UTF-8 bytes of a string, modelling a Go `[]byte(s)` conversion. -/
def strBytes (s : String) : List Nat :=
  s.toUTF8.toList.map (fun b => b.toNat)

/-- The environment configuration read by `F`: the destination URL
(with the result of `url.Parse` on it as a flag), the lookup token and
the optional shared webhook secret. -/
structure Env where
  discordWebhookURL : String := ""
  discordURLValid : Bool := true
  clubhouseApiToken : String := ""
  clubhouseWebhookSecret : String := ""
deriving DecidableEq

/-- The parts of the inbound HTTP request that `F` reads. -/
structure HttpRequest where
  method : String := ""
  contentType : String := ""
  clubhouseSignature : String := ""
  body : List Nat := []
deriving DecidableEq

/-- How one invocation of `F` terminates: a Go runtime panic (the
unchecked index), `log.Fatalln` (process death), or the written HTTP
status code. -/
inductive HandlerResult where
  | panicked
  | fatal
  | respond (status : Nat)
deriving DecidableEq

/-- The observable outcome of one invocation of `F`: the messages
POSTed to the Discord URL, and how the invocation terminated. -/
structure HandlerOutcome where
  posts : List DiscordWebhook
  result : HandlerResult
deriving DecidableEq

/-- The part of `F` after the transport and signature checks: decode
the body (malformed JSON is fatal), reject any version other than
"v1", silently accept any action count other than one, translate, and
forward a produced message to the destination (a non-2xx destination
status is fatal). `decode` models `json.Unmarshal`, `postStatus` the
destination POST. -/
def handlePayload (decode : List Nat → Option ClubhouseWebhook) (getMember : MemberLookup)
    (postStatus : DiscordWebhook → Nat) (data : List Nat) : HandlerOutcome :=
  match decode data with
  | none => ⟨[], .fatal⟩
  | some webhook =>
    if webhook.version ≠ "v1" then ⟨[], .respond 400⟩
    else if webhook.actions.length ≠ 1 then ⟨[], .respond 200⟩
    else
      match toDiscord getMember webhook with
      | .error .indexOOB => ⟨[], .panicked⟩
      | .error (.lookupFailed _) => ⟨[], .fatal⟩
      | .ok none => ⟨[], .respond 200⟩
      | .ok (some discordWebhook) =>
        let status := postStatus discordWebhook
        if status < 200 ∨ 300 ≤ status then ⟨[discordWebhook], .fatal⟩
        else ⟨[discordWebhook], .respond 200⟩

/-- `F` from `function.go`, the request handler: environment checks
(fatal when missing), method and content-type validation, the optional
HMAC-SHA256 signature verification over the raw body, then
`handlePayload`. -/
def F (env : Env) (decode : List Nat → Option ClubhouseWebhook) (getMember : MemberLookup)
    (postStatus : DiscordWebhook → Nat) (r : HttpRequest) : HandlerOutcome :=
  if env.discordWebhookURL = "" then ⟨[], .fatal⟩
  else if env.discordURLValid = false then ⟨[], .fatal⟩
  else if env.clubhouseApiToken = "" then ⟨[], .fatal⟩
  else if r.method ≠ "POST" ∨ r.contentType ≠ "application/json" then ⟨[], .respond 400⟩
  else if trimSpaceGo r.clubhouseSignature ≠ "" then
    if env.clubhouseWebhookSecret = "" then ⟨[], .fatal⟩
    else
      match hexDecode (trimSpaceGo r.clubhouseSignature) with
      | none => ⟨[], .fatal⟩
      | some clubhouseHexSignature =>
        if clubhouseHexSignature = hmacSha256 (strBytes (trimSpaceGo env.clubhouseWebhookSecret)) r.body then
          handlePayload decode getMember postStatus r.body
        else ⟨[], .respond 400⟩
  else handlePayload decode getMember postStatus r.body

/-- A member lookup that fails for every id (used as a concrete oracle
where the translated event performs no member lookups). -/
def gmErr : MemberLookup := fun _ => .error "not found"

/-- A webhook whose reference list resolves only label id 2. -/
def whLabelRefs : ClubhouseWebhook :=
  { references := [{ entityType := "label", id := 2, name := "Bug" }] }

/-- C1 counterexample: with label adds `[1, 2]` where only id 2 resolves
(to "Bug") and removes `[3]` where nothing resolves, the code emits the
value ", Bug" (the unresolved id stays as an empty string in the joined
list, it is not dropped, or the value would be "Bug"), and it emits a
"Label(s) Removed" field with empty value instead of omitting it. -/
theorem c1_label_counterexample :
    getChangesFields gmErr (getReferencesByTypeID whLabelRefs)
        { labelIds := some { adds := [1, 2], removes := [3] } } =
      .ok [{ name := "Label(s) Added", value := ", Bug" },
           { name := "Label(s) Removed", value := "" }] ∧
    (", Bug" : String) ≠ "Bug" ∧
    String.intercalate ", " ["Bug"] = "Bug" := by
  refine ⟨rfl, by decide, rfl⟩

/-- C1 (amended): in the update-path change mapper, the "Label(s)
Added" and "Label(s) Removed" values comma-join, over the id list in
order, the resolved name for each id found in the reference index and
the empty string for each id not found (unresolved ids are kept as
empty entries, not dropped); each field is emitted exactly when its
adds (resp. removes) list is non-empty, even when no id resolves. -/
theorem c1_labels_amended (getMember : MemberLookup) (referencesByTypeID : RefMap)
    (l : IntListDelta) :
    getChangesFields getMember referencesByTypeID { labelIds := some l } =
      .ok ((if l.adds.length > 0 then
              [{ name := "Label(s) Added",
                 value := String.intercalate ", " (l.adds.map (fun labelID =>
                   match referencesByTypeID ("label:" ++ toString labelID) with
                   | some label => label.name
                   | none => "")) }]
            else []) ++
           (if l.removes.length > 0 then
              [{ name := "Label(s) Removed",
                 value := String.intercalate ", " (l.removes.map (fun labelID =>
                   match referencesByTypeID ("label:" ++ toString labelID) with
                   | some label => label.name
                   | none => "")) }]
            else [])) := by
  by_cases ha : l.adds.length > 0 <;> by_cases hr : l.removes.length > 0 <;>
    simp [getChangesFields, changesDeadlineFields, changesEpicFields, changesEstimateFields,
      changesIterationFields, changesLabelFields, changesOwnerFields, changesProjectFields,
      changesStoryTypeFields, changesTextFields, changesWorkflowStateFields, ha, hr]

/-- A webhook whose reference list resolves only project id 5. -/
def whProjectRefs : ClubhouseWebhook :=
  { references := [{ entityType := "project", id := 5, name := "Web" }] }

/-- C2 counterexample: the `project_id` sub-record carries non-optional
ids, so an id absent from the JSON decodes to 0 and renders "Unknown",
not "None": with old absent (0) and new = 5 resolving to "Web", the
code renders "Unknown -> Web" where the claim requires "None -> Web". -/
theorem c2_project_counterexample :
    getChangesFields gmErr (getReferencesByTypeID whProjectRefs)
        { projectID := some { old := 0, new := 5 } } =
      .ok [{ name := "Project", value := "Unknown -> Web" }] ∧
    ("Unknown -> Web" : String) ≠ "None -> Web" := by
  refine ⟨rfl, by decide⟩

/-- C2 (amended): for the Epic and Iteration sub-records (optional
ids), an absent old or new id renders "None", a present id with no
matching reference renders "Unknown", and a present id with a matching
reference renders its name; the Project and Workflow-State sub-records
carry non-optional ids (an id absent from the JSON decodes to 0) and
render "Unknown" for any id with no matching reference, with no "None"
case; each field value is "<old-name> -> <new-name>", and the
workflow-state value is rendered in title case. -/
theorem c2_idvalued_amended :
    (∀ (getMember : MemberLookup) (referencesByTypeID : RefMap) (c : OptIntChange),
      getChangesFields getMember referencesByTypeID { epicID := some c } =
        .ok [{ name := "Epic",
               value :=
                 (match c.old with
                  | none => "None"
                  | some i =>
                    match referencesByTypeID ("epic:" ++ toString i) with
                    | some r => r.name
                    | none => "Unknown") ++ " -> " ++
                 (match c.new with
                  | none => "None"
                  | some i =>
                    match referencesByTypeID ("epic:" ++ toString i) with
                    | some r => r.name
                    | none => "Unknown") }]) ∧
    (∀ (getMember : MemberLookup) (referencesByTypeID : RefMap) (c : OptIntChange),
      getChangesFields getMember referencesByTypeID { iterationID := some c } =
        .ok [{ name := "Iteration",
               value :=
                 (match c.old with
                  | none => "None"
                  | some i =>
                    match referencesByTypeID ("iteration:" ++ toString i) with
                    | some r => r.name
                    | none => "Unknown") ++ " -> " ++
                 (match c.new with
                  | none => "None"
                  | some i =>
                    match referencesByTypeID ("iteration:" ++ toString i) with
                    | some r => r.name
                    | none => "Unknown") }]) ∧
    (∀ (getMember : MemberLookup) (referencesByTypeID : RefMap) (c : IntChange),
      getChangesFields getMember referencesByTypeID { projectID := some c } =
        .ok [{ name := "Project",
               value :=
                 (match referencesByTypeID ("project:" ++ toString c.old) with
                  | some r => r.name
                  | none => "Unknown") ++ " -> " ++
                 (match referencesByTypeID ("project:" ++ toString c.new) with
                  | some r => r.name
                  | none => "Unknown") }]) ∧
    (∀ (getMember : MemberLookup) (referencesByTypeID : RefMap) (c : IntChange),
      getChangesFields getMember referencesByTypeID { workflowStateID := some c } =
        .ok [{ name := "State",
               value := titleGo
                 ((match referencesByTypeID ("workflow-state:" ++ toString c.old) with
                   | some r => r.name
                   | none => "Unknown") ++ " -> " ++
                  (match referencesByTypeID ("workflow-state:" ++ toString c.new) with
                   | some r => r.name
                   | none => "Unknown")) }]) := by
  refine ⟨fun gm refs c => rfl, fun gm refs c => rfl, fun gm refs c => rfl, fun gm refs c => rfl⟩

/-- If some id in the list has a failing lookup, the owner-name loop
returns an error. -/
theorem getOwnerNames_err (getMember : MemberLookup) (ids : List String) (i e : String)
    (hmem : i ∈ ids) (herr : getMember i = .error e) :
    ∃ e2, getOwnerNames getMember ids = .error e2 := by
  induction ids with
  | nil => cases hmem
  | cons hd tl ih =>
    rcases List.mem_cons.mp hmem with hh | ht
    · exact ⟨e, by simp [getOwnerNames, hh ▸ herr]⟩
    · cases hgm : getMember hd with
      | error e3 => exact ⟨e3, by simp [getOwnerNames, hgm]⟩
      | ok m =>
        rcases ih ht with ⟨e2, h2⟩
        exact ⟨e2, by simp [getOwnerNames, hgm, h2]⟩

/-- If some added or removed owner id has a failing lookup, the owners
block returns an error. -/
theorem changesOwnerFields_err (getMember : MemberLookup) (changes : ClubhouseChanges)
    (o : StrListDelta) (i e : String) (ho : changes.ownerIds = some o)
    (hmem : i ∈ o.adds ++ o.removes) (herr : getMember i = .error e) :
    ∃ e2, changesOwnerFields getMember changes = .error e2 := by
  rcases List.mem_append.mp hmem with hma | hmr
  · have hal : o.adds.length > 0 := List.length_pos.mpr (List.ne_nil_of_mem hma)
    rcases getOwnerNames_err getMember o.adds i e hma herr with ⟨e2, h2⟩
    exact ⟨e2, by simp [changesOwnerFields, ho, hal, h2]⟩
  · have hrl : o.removes.length > 0 := List.length_pos.mpr (List.ne_nil_of_mem hmr)
    rcases getOwnerNames_err getMember o.removes i e hmr herr with ⟨e2, h2⟩
    by_cases hal : o.adds.length > 0
    · cases hres : getOwnerNames getMember o.adds with
      | error e3 => exact ⟨e3, by simp [changesOwnerFields, ho, hal, hres]⟩
      | ok ns => exact ⟨e2, by simp [changesOwnerFields, ho, hal, hres, hrl, h2]⟩
    · exact ⟨e2, by simp [changesOwnerFields, ho, hal, hrl, h2]⟩

/-- If the owners block errors, the whole change mapping returns that
error and no field list. -/
theorem getChangesFields_err (getMember : MemberLookup) (referencesByTypeID : RefMap)
    (changes : ClubhouseChanges) (e2 : String)
    (h : changesOwnerFields getMember changes = .error e2) :
    getChangesFields getMember referencesByTypeID changes = .error e2 := by
  simp [getChangesFields, h]

/-- C3: for an update action with an owner change, one failing member
lookup among the added or removed ids makes the change mapping return
an error with no partial field list, the translator surface that error,
and the handler die fatally having forwarded nothing. -/
theorem c3_owner_lookup_abort
    (env : Env) (decode : List Nat → Option ClubhouseWebhook) (getMember : MemberLookup)
    (postStatus : DiscordWebhook → Nat) (r : HttpRequest)
    (webhook : ClubhouseWebhook) (a : ClubhouseAction) (o : StrListDelta) (i e : String)
    (h1 : env.discordWebhookURL ≠ "") (h2 : env.discordURLValid = true)
    (h3 : env.clubhouseApiToken ≠ "")
    (h4 : r.method = "POST") (h5 : r.contentType = "application/json")
    (h6 : trimSpaceGo r.clubhouseSignature = "")
    (h7 : decode r.body = some webhook)
    (h8 : webhook.version = "v1")
    (h9 : webhook.actions = [a])
    (h10 : a.action = "update")
    (h11 : a.changes.ownerIds = some o)
    (h12 : i ∈ o.adds ++ o.removes)
    (h13 : getMember i = .error e) :
    (∃ e2, getChangesFields getMember (getReferencesByTypeID webhook) a.changes = .error e2) ∧
    (∃ e2, toDiscord getMember webhook = .error (.lookupFailed e2)) ∧
    F env decode getMember postStatus r = ⟨[], .fatal⟩ := by
  rcases changesOwnerFields_err getMember a.changes o i e h11 h12 h13 with ⟨e2, hof⟩
  have hg : getChangesFields getMember (getReferencesByTypeID webhook) a.changes = .error e2 :=
    getChangesFields_err getMember (getReferencesByTypeID webhook) a.changes e2 hof
  have htd : toDiscord getMember webhook = .error (.lookupFailed e2) := by
    simp [toDiscord, h9, h10, hg]
  refine ⟨⟨e2, hg⟩, ⟨e2, htd⟩, ?_⟩
  have hlen : webhook.actions.length = 1 := by simp [h9]
  simp [F, h1, h2, h3, h4, h5, h6, handlePayload, h7, h8, hlen, htd]

/-- The environment configuration used by the concrete witnesses. -/
def envOK : Env := { discordWebhookURL := "https://discord", clubhouseApiToken := "t" }

/-- A destination that accepts every POST with status 204. -/
def post204 : DiscordWebhook → Nat := fun _ => 204

/-- A plain JSON POST request with no signature header. -/
def reqPlain : HttpRequest := { method := "POST", contentType := "application/json", body := [] }

/-- An update action adding owner "u1". -/
def aOwner : ClubhouseAction :=
  { action := "update", entityType := "story", name := "S", appURL := "u",
    changes := { ownerIds := some { adds := ["u1"], removes := [] } } }

/-- The webhook carrying `aOwner`. -/
def whOwner : ClubhouseWebhook := { actions := [aOwner], version := "v1" }

/-- A decode oracle returning `whOwner` for every body. -/
def decodeOwner : List Nat → Option ClubhouseWebhook := fun _ => some whOwner

/-- C3 witness: the abort theorem applied at a concrete event whose
only owner lookup fails. -/
theorem c3_owner_lookup_abort_witness :
    (∃ e2, getChangesFields gmErr (getReferencesByTypeID whOwner) aOwner.changes = .error e2) ∧
    (∃ e2, toDiscord gmErr whOwner = .error (.lookupFailed e2)) ∧
    F envOK decodeOwner gmErr post204 reqPlain = ⟨[], .fatal⟩ :=
  c3_owner_lookup_abort envOK decodeOwner gmErr post204 reqPlain whOwner aOwner
    { adds := ["u1"], removes := [] } "u1" "not found"
    (by decide) rfl (by decide) rfl rfl (by decide) rfl rfl rfl rfl rfl (by decide) rfl

/-- If the finishing step emits a message, its single embed carries
exactly the composed title. -/
theorem toDiscordFinish_title (getMember : MemberLookup) (webhook : ClubhouseWebhook)
    (firstAction : ClubhouseAction) (colour : Int) (fields : List Field) (m : DiscordWebhook)
    (h : toDiscordFinish getMember webhook firstAction colour fields = .ok (some m)) :
    ∃ tt, composeTitle getMember webhook firstAction = .ok tt ∧
      m.embeds.map Embed.title = [tt] := by
  unfold toDiscordFinish at h
  cases hct : composeTitle getMember webhook firstAction with
  | error e => rw [hct] at h; cases h
  | ok tt =>
    rw [hct] at h
    by_cases hc : tt = "" ∨ (if firstAction.appURL ≠ "" then firstAction.appURL else "") = ""
    · simp only [hc, if_true, if_pos hc] at h; cases h
    · simp only [if_neg hc, Except.ok.injEq, Option.some.injEq] at h
      subst h
      exact ⟨tt, rfl, rfl⟩

/-- If the translator emits a message, the title of its single embed is
the composed title. -/
theorem toDiscord_title (getMember : MemberLookup) (webhook : ClubhouseWebhook)
    (a : ClubhouseAction) (rest : List ClubhouseAction) (m : DiscordWebhook)
    (h9 : webhook.actions = a :: rest)
    (hm : toDiscord getMember webhook = .ok (some m)) :
    ∃ tt, composeTitle getMember webhook a = .ok tt ∧ m.embeds.map Embed.title = [tt] := by
  unfold toDiscord at hm
  rw [h9] at hm
  dsimp only at hm
  split at hm
  all_goals try split at hm
  all_goals try split at hm
  all_goals
    first
      | (simp at hm; done)
      | exact toDiscordFinish_title getMember webhook a _ _ m hm

/-- C4 (amended): when the translator emits a message for an action
whose kind, entity type and name are all non-empty, the title is
"<Title(Member Name)> <Kind>d <EntityType>: <Name>" when the event
carries a member id (the looked-up display name passes through Go
strings.Title before being prefixed), and
"<Title(Kind)>d <EntityType>: <Name>" when it does not. -/
theorem c4_title_amended (getMember : MemberLookup) (webhook : ClubhouseWebhook)
    (a : ClubhouseAction) (rest : List ClubhouseAction) (m : DiscordWebhook)
    (h9 : webhook.actions = a :: rest)
    (ha : a.action ≠ "") (he : a.entityType ≠ "") (hn : a.name ≠ "")
    (hm : toDiscord getMember webhook = .ok (some m)) :
    (∀ mem, webhook.memberID ≠ "" → getMember webhook.memberID = .ok mem →
      m.embeds.map Embed.title =
        [titleGo mem.profile.name ++ " " ++ a.action ++ "d " ++ a.entityType ++ ": " ++ a.name]) ∧
    (webhook.memberID = "" →
      m.embeds.map Embed.title =
        [titleGo a.action ++ "d " ++ a.entityType ++ ": " ++ a.name]) := by
  rcases toDiscord_title getMember webhook a rest m h9 hm with ⟨tt, hct, hmap⟩
  constructor
  · intro mem hmid hgm
    rw [hmap]
    unfold composeTitle at hct
    rw [if_pos ⟨ha, he, hn⟩, if_pos hmid, hgm] at hct
    exact congrArg (fun s => [s]) (Except.ok.inj hct).symm
  · intro hmid
    rw [hmap]
    unfold composeTitle at hct
    rw [if_pos ⟨ha, he, hn⟩, if_neg (by simp [hmid])] at hct
    exact congrArg (fun s => [s]) (Except.ok.inj hct).symm

/-- A member lookup resolving id "m1" to the display name "jane doe". -/
def gmJane : MemberLookup :=
  fun i => if i = "m1" then .ok { profile := { name := "jane doe" } } else .error "nf"

/-- An update action with a changed description. -/
def aUpd : ClubhouseAction :=
  { action := "update", entityType := "story", name := "Fix login bug", appURL := "https://x",
    changes := { text := some { old := "a", new := "b" } } }

/-- The webhook carrying `aUpd`, triggered by member "m1". -/
def whUpd : ClubhouseWebhook := { actions := [aUpd], memberID := "m1", version := "v1" }

/-- The embed the code produces for `whUpd` under `gmJane`. -/
def embedJane : Embed :=
  { title := "Jane Doe updated story: Fix login bug", url := "https://x", description := "",
    color := 16440084, fields := [{ name := "Description", value := "(Edited)" }] }

/-- The message the code produces for `whUpd` under `gmJane`. -/
def msgJane : DiscordWebhook := { content := "", embeds := [embedJane] }

/-- C4 counterexample: the member lookup returns the display name
"jane doe", but the emitted title is "Jane Doe updated story: ..." (the
code passes the name through Go strings.Title), so the title is not
"<Member Name> <Kind>d <EntityType>: <Name>" with the name used as
obtained. -/
theorem c4_title_counterexample :
    gmJane "m1" = .ok { profile := { name := "jane doe" } } ∧
    whUpd.memberID = "m1" ∧
    toDiscord gmJane whUpd = .ok (some msgJane) ∧
    embedJane.title = "Jane Doe updated story: Fix login bug" ∧
    ("Jane Doe updated story: Fix login bug" : String) ≠
      "jane doe updated story: Fix login bug" :=
  ⟨rfl, rfl, rfl, rfl, by decide⟩

/-- C4 witness: the amended title theorem applied to the concrete event
`whUpd` under `gmJane`. -/
theorem c4_title_amended_witness :
    msgJane.embeds.map Embed.title =
      [titleGo "jane doe" ++ " " ++ "update" ++ "d " ++ "story" ++ ": " ++ "Fix login bug"] :=
  (c4_title_amended gmJane whUpd aUpd [] msgJane rfl (by decide) (by decide) (by decide) rfl).1
    { profile := { name := "jane doe" } } (by decide) rfl

/-- Pull a conditional append apart into an append of a conditional
singleton (shape of each step of `getActionFields`). -/
theorem ite_append_right (p : Prop) [Decidable p] (fs xs : List Field) :
    (if p then fs ++ xs else fs) = fs ++ (if p then xs else []) := by
  split_ifs <;> simp

set_option maxHeartbeats 1600000 in
/-- C5: the create-path mapper produces its fields in the fixed order
story type, project, milestone, workflow state, epic, iteration,
estimate, each present exactly when its source attribute is non-empty
resp. positive; and when zero fields result the translator returns no
message and no error. -/
theorem c5_create_fields :
    (∀ (referencesByTypeID : RefMap) (action : ClubhouseAction),
      getActionFields referencesByTypeID action =
        (if action.storyType ≠ "" then
          [{ name := "Type", value := action.storyType, inline := true }] else []) ++
        (if action.projectID > 0 then
          [{ name := "Project",
             value := ((referencesByTypeID ("project:" ++ toString action.projectID)).getD zeroReference).name,
             inline := true }] else []) ++
        (if action.milestoneID > 0 then
          [{ name := "Milestone",
             value := ((referencesByTypeID ("milestone:" ++ toString action.milestoneID)).getD zeroReference).name,
             inline := true }] else []) ++
        (if action.workflowStateID > 0 then
          [{ name := "State",
             value := ((referencesByTypeID ("workflow-state:" ++ toString action.workflowStateID)).getD zeroReference).name,
             inline := true }] else []) ++
        (if action.epicID > 0 then
          [{ name := "Epic",
             value := ((referencesByTypeID ("epic:" ++ toString action.epicID)).getD zeroReference).name,
             inline := true }] else []) ++
        (if action.iterationID > 0 then
          [{ name := "Iteration",
             value := ((referencesByTypeID ("iteration:" ++ toString action.iterationID)).getD zeroReference).name,
             inline := true }] else []) ++
        (if action.estimate > 0 then
          [{ name := "Estimate", value := toString action.estimate, inline := true }] else [])) ∧
    (∀ (getMember : MemberLookup) (webhook : ClubhouseWebhook) (a : ClubhouseAction),
      webhook.actions = [a] → a.action = "create" →
      getActionFields (getReferencesByTypeID webhook) a = [] →
      toDiscord getMember webhook = .ok none) := by
  constructor
  · intro referencesByTypeID action
    simp only [getActionFields]
    split_ifs <;> rfl
  · intro getMember webhook a h9 hact hfield
    simp [toDiscord, h9, hact, hfield]

/-- A create action with none of the qualifying attributes set. -/
def aCreateEmpty : ClubhouseAction :=
  { action := "create", entityType := "story", name := "N", appURL := "u" }

/-- The webhook carrying `aCreateEmpty`. -/
def whCreateEmpty : ClubhouseWebhook := { actions := [aCreateEmpty], version := "v1" }

/-- C5 witness: a create action with zero qualifying attributes yields
no message and no error. -/
theorem c5_create_fields_witness : toDiscord gmErr whCreateEmpty = .ok none :=
  c5_create_fields.2 gmErr whCreateEmpty aCreateEmpty rfl rfl (by decide)

/-- A decode oracle yielding an envelope with an unsupported version
and zero actions. -/
def decodeV2 : List Nat → Option ClubhouseWebhook :=
  fun _ => some { version := "v2", actions := [] }

/-- C6 counterexample: an event with action count 0 (≠ 1) but version
"v2" is answered 400, not 200 — the version check runs first, so the
claim does not hold for every event with action count ≠ 1. -/
theorem c6_version_counterexample :
    (({ version := "v2", actions := [] } : ClubhouseWebhook).actions.length ≠ 1) ∧
    F envOK decodeV2 gmErr post204 reqPlain = ⟨[], .respond 400⟩ ∧
    (HandlerResult.respond 400 ≠ HandlerResult.respond 200) :=
  ⟨by decide, rfl, by decide⟩

/-- C6 (amended): for every event that passes the transport, signature
and version checks (version tag "v1") and whose action count is not
exactly 1, the handler responds 200 and POSTs nothing to the
destination. -/
theorem c6_action_count_amended
    (env : Env) (decode : List Nat → Option ClubhouseWebhook) (getMember : MemberLookup)
    (postStatus : DiscordWebhook → Nat) (r : HttpRequest) (webhook : ClubhouseWebhook)
    (h1 : env.discordWebhookURL ≠ "") (h2 : env.discordURLValid = true)
    (h3 : env.clubhouseApiToken ≠ "")
    (h4 : r.method = "POST") (h5 : r.contentType = "application/json")
    (h6 : trimSpaceGo r.clubhouseSignature = "")
    (h7 : decode r.body = some webhook) (h8 : webhook.version = "v1")
    (h9 : webhook.actions.length ≠ 1) :
    F env decode getMember postStatus r = ⟨[], .respond 200⟩ := by
  simp [F, h1, h2, h3, h4, h5, h6, handlePayload, h7, h8, h9]

/-- A decode oracle yielding a supported-version envelope with zero
actions. -/
def decodeV1Zero : List Nat → Option ClubhouseWebhook :=
  fun _ => some { version := "v1", actions := [] }

/-- C6 witness: the amended theorem applied to a concrete v1 event with
zero actions. -/
theorem c6_action_count_amended_witness :
    F envOK decodeV1Zero gmErr post204 reqPlain = ⟨[], .respond 200⟩ :=
  c6_action_count_amended envOK decodeV1Zero gmErr post204 reqPlain
    { version := "v1", actions := [] }
    (by decide) rfl (by decide) rfl rfl (by decide) rfl rfl (by decide)

/-- C7: a well-formed event (passing transport and signature checks and
decoding successfully) whose version tag is not "v1" is answered 400
with nothing forwarded. -/
theorem c7_bad_version
    (env : Env) (decode : List Nat → Option ClubhouseWebhook) (getMember : MemberLookup)
    (postStatus : DiscordWebhook → Nat) (r : HttpRequest) (webhook : ClubhouseWebhook)
    (h1 : env.discordWebhookURL ≠ "") (h2 : env.discordURLValid = true)
    (h3 : env.clubhouseApiToken ≠ "")
    (h4 : r.method = "POST") (h5 : r.contentType = "application/json")
    (h6 : trimSpaceGo r.clubhouseSignature = "")
    (h7 : decode r.body = some webhook) (h8 : webhook.version ≠ "v1") :
    F env decode getMember postStatus r = ⟨[], .respond 400⟩ := by
  simp [F, h1, h2, h3, h4, h5, h6, handlePayload, h7, h8]

/-- C7 witness: the version theorem applied to a concrete "v2" event. -/
theorem c7_bad_version_witness :
    F envOK decodeV2 gmErr post204 reqPlain = ⟨[], .respond 400⟩ :=
  c7_bad_version envOK decodeV2 gmErr post204 reqPlain
    { version := "v2", actions := [] }
    (by decide) rfl (by decide) rfl rfl (by decide) rfl (by decide)

/-- A SHA-256 digest is always 32 bytes. -/
theorem sha256_length (msg : List Nat) : (sha256 msg).length = 32 := by
  simp [sha256, be32]

/-- An HMAC-SHA256 tag is always 32 bytes. -/
theorem hmacSha256_length (key msg : List Nat) : (hmacSha256 key msg).length = 32 := by
  simp [hmacSha256, sha256_length]

/-- C8: when a signature header is present and a secret is configured,
the handler compares the hex-decoded header against `hmacSha256` (the
reference HMAC-SHA256 computation defined in this file) of the raw body
keyed by the trimmed secret: any decoded value different from that MAC
is answered 400 with the event unprocessed and nothing forwarded, and
the event is processed exactly when the decoded value equals that MAC. -/
theorem c8_signature_check
    (env : Env) (decode : List Nat → Option ClubhouseWebhook) (getMember : MemberLookup)
    (postStatus : DiscordWebhook → Nat) (r : HttpRequest) (sigBytes : List Nat)
    (h1 : env.discordWebhookURL ≠ "") (h2 : env.discordURLValid = true)
    (h3 : env.clubhouseApiToken ≠ "")
    (h4 : r.method = "POST") (h5 : r.contentType = "application/json")
    (h6 : trimSpaceGo r.clubhouseSignature ≠ "") (h7 : env.clubhouseWebhookSecret ≠ "")
    (h8 : hexDecode (trimSpaceGo r.clubhouseSignature) = some sigBytes) :
    (sigBytes ≠ hmacSha256 (strBytes (trimSpaceGo env.clubhouseWebhookSecret)) r.body →
      F env decode getMember postStatus r = ⟨[], .respond 400⟩) ∧
    (sigBytes = hmacSha256 (strBytes (trimSpaceGo env.clubhouseWebhookSecret)) r.body →
      F env decode getMember postStatus r = handlePayload decode getMember postStatus r.body) := by
  constructor
  · intro hne
    simp [F, h1, h2, h3, h4, h5, h6, h7, h8, hne]
  · intro he
    simp [F, h1, h2, h3, h4, h5, h6, h7, h8, he]

/-- An environment with a configured webhook secret. -/
def envW8 : Env :=
  { discordWebhookURL := "https://discord", clubhouseApiToken := "t",
    clubhouseWebhookSecret := "s" }

/-- A JSON POST request with the (wrong) signature header "ab". -/
def reqW8 : HttpRequest :=
  { method := "POST", contentType := "application/json", clubhouseSignature := "ab", body := [] }

/-- C8 witness: the signature theorem applied to a concrete request
whose one-byte decoded signature cannot equal the 32-byte MAC. -/
theorem c8_signature_check_witness :
    F envW8 decodeV1Zero gmErr post204 reqW8 = ⟨[], .respond 400⟩ := by
  have hne : ([171] : List Nat) ≠
      hmacSha256 (strBytes (trimSpaceGo envW8.clubhouseWebhookSecret)) reqW8.body := by
    intro h
    have hl := congrArg List.length h
    rw [hmacSha256_length] at hl
    simp at hl
  exact (c8_signature_check envW8 decodeV1Zero gmErr post204 reqW8 [171]
    (by decide) rfl (by decide) rfl rfl (by decide) (by decide) (by decide)).1 hne

/-- C9: the translator is deterministic — two translations of the same
event under the same member lookup yield the same message. -/
theorem c9_deterministic (getMember : MemberLookup) (webhook : ClubhouseWebhook)
    (m1 m2 : DiscordWebhook)
    (hr1 : toDiscord getMember webhook = .ok (some m1))
    (hr2 : toDiscord getMember webhook = .ok (some m2)) : m1 = m2 := by
  rw [hr1] at hr2
  exact Option.some.inj (Except.ok.inj hr2)

/-- A create action whose story type is set. -/
def aCreateBug : ClubhouseAction :=
  { action := "create", entityType := "story", name := "Fix", appURL := "u", storyType := "bug" }

/-- The webhook carrying `aCreateBug`. -/
def whCreateBug : ClubhouseWebhook := { actions := [aCreateBug], version := "v1" }

/-- The embed the code produces for `whCreateBug`. -/
def embedCreateBug : Embed :=
  { title := "Created story: Fix", url := "u", description := "", color := 5424154,
    fields := [{ name := "Type", value := "bug", inline := true }] }

/-- The message the code produces for `whCreateBug`. -/
def msgCreateBug : DiscordWebhook := { content := "", embeds := [embedCreateBug] }

/-- C9 witness: determinism applied at a concrete event, with both
translation hypotheses discharged by evaluation. -/
theorem c9_deterministic_witness : msgCreateBug = msgCreateBug :=
  c9_deterministic gmErr whCreateBug msgCreateBug msgCreateBug rfl rfl

/-- The title step only ever fails with a lookup error, never with the
index panic. -/
theorem composeTitle_err_shape (getMember : MemberLookup) (webhook : ClubhouseWebhook)
    (a : ClubhouseAction) (e : TransErr)
    (h : composeTitle getMember webhook a = .error e) : ∃ msg, e = .lookupFailed msg := by
  unfold composeTitle at h
  split at h
  · split at h
    · split at h
      · exact ⟨_, (Except.error.inj h).symm⟩
      · cases h
    · cases h
  · cases h

/-- The finishing step never returns the index panic. -/
theorem toDiscordFinish_no_panic (getMember : MemberLookup) (webhook : ClubhouseWebhook)
    (a : ClubhouseAction) (colour : Int) (fields : List Field) :
    toDiscordFinish getMember webhook a colour fields ≠ .error .indexOOB := by
  unfold toDiscordFinish
  cases hct : composeTitle getMember webhook a with
  | error e =>
    rcases composeTitle_err_shape getMember webhook a e hct with ⟨msg, rfl⟩
    simp
  | ok tt =>
    dsimp only
    split <;> split <;> simp

/-- On a non-empty action list the translator never returns the index
panic. -/
theorem toDiscord_no_panic (getMember : MemberLookup) (webhook : ClubhouseWebhook)
    (a : ClubhouseAction) (rest : List ClubhouseAction)
    (h9 : webhook.actions = a :: rest) :
    toDiscord getMember webhook ≠ .error .indexOOB := by
  unfold toDiscord
  rw [h9]
  dsimp only
  split
  · split
    · simp
    · exact toDiscordFinish_no_panic getMember webhook a 5424154 _
  · split
    · simp
    · split
      · simp
      · exact toDiscordFinish_no_panic getMember webhook a 16440084 _
  · exact toDiscordFinish_no_panic getMember webhook a 16065069 []
  · simp

/-- The post-signature stage never panics: the translator is invoked
only behind the action-count guard. -/
theorem handlePayload_no_panic (decode : List Nat → Option ClubhouseWebhook)
    (getMember : MemberLookup) (postStatus : DiscordWebhook → Nat) (data : List Nat) :
    (handlePayload decode getMember postStatus data).result ≠ .panicked := by
  unfold handlePayload
  cases hdec : decode data with
  | none => simp
  | some webhook =>
    by_cases hv : webhook.version ≠ "v1"
    · simp [hv]
    · simp only [hv, if_false]
      by_cases hl : webhook.actions.length ≠ 1
      · simp [hl]
      · simp only [hl, if_false]
        have hne : webhook.actions ≠ [] := by
          intro hnil
          exact hl (by simp [hnil])
        match hacts : webhook.actions with
        | [] => exact absurd hacts hne
        | a :: rest =>
          have hnp := toDiscord_no_panic getMember webhook a rest hacts
          cases htd : toDiscord getMember webhook with
          | error te =>
            cases te with
            | indexOOB => exact absurd htd hnp
            | lookupFailed msg => simp [htd]
          | ok o =>
            cases o with
            | none => simp [htd]
            | some dw =>
              simp only [htd]
              split <;> simp

/-- The request handler never reaches the panicking branch. -/
theorem F_no_panic (env : Env) (decode : List Nat → Option ClubhouseWebhook)
    (getMember : MemberLookup) (postStatus : DiscordWebhook → Nat) (r : HttpRequest) :
    (F env decode getMember postStatus r).result ≠ .panicked := by
  unfold F
  split
  · simp
  · split
    · simp
    · split
      · simp
      · split
        · simp
        · split
          · split
            · simp
            · split
              · simp
              · split
                · exact handlePayload_no_panic decode getMember postStatus r.body
                · simp
          · exact handlePayload_no_panic decode getMember postStatus r.body

/-- C10: the translator reads the first action unconditionally, so an
empty action list hits the out-of-bounds branch; the handler
establishes the non-empty precondition by translating only events with
exactly one action, so the panic branch is unreachable from `F`. -/
theorem c10_index_safety :
    (∀ (getMember : MemberLookup) (webhook : ClubhouseWebhook),
      webhook.actions = [] → toDiscord getMember webhook = .error .indexOOB) ∧
    (∀ (env : Env) (decode : List Nat → Option ClubhouseWebhook) (getMember : MemberLookup)
      (postStatus : DiscordWebhook → Nat) (r : HttpRequest),
      (F env decode getMember postStatus r).result ≠ .panicked) := by
  constructor
  · intro getMember webhook h
    simp [toDiscord, h]
  · intro env decode getMember postStatus r
    exact F_no_panic env decode getMember postStatus r

/-- C10 witness: the out-of-bounds branch taken at an empty action
list, and the handler outcome at a concrete request not panicking. -/
theorem c10_index_safety_witness :
    toDiscord gmErr { actions := [] } = .error .indexOOB ∧
    (F envOK decodeV1Zero gmErr post204 reqPlain).result ≠ .panicked :=
  ⟨c10_index_safety.1 gmErr { actions := [] } rfl,
   c10_index_safety.2 envOK decodeV1Zero gmErr post204 reqPlain⟩

end CtoD
